import Mathlib

/-!
Verification of `src/api/utils/tracing.py`: OpenTelemetry tracing bootstrap
(`setup_tracing`), manual span helpers (`create_custom_span`,
`add_span_attributes`, `record_exception`) and the `TracingSpan` context
manager, shallowly embedded in Lean.

Modelling notes.
* Attribute dictionaries are association lists `List (String × Value)`;
  `setKey` is dict assignment (overwrite in place, else append) and
  `lookupKey` is dict lookup.
* Python exceptions are `Exc`; the field `truthy` models the result of the
  boolean conversion `bool(e)` (normally `true`, but a class may override it),
  which is what `if exc_val:` tests in `TracingSpan.__exit__`.
* SDK calls that this module merely forwards to (the tracer starting a span,
  `span.record_exception`, the bootstrap constructors) are external
  collaborators; their possible failures are environment parameters
  (`Sdk.recordExceptionFault`, the fault fields of `SetupSdk`).
* Fallible computations return `Except Exc _`; `.error f` means the Python
  call raised `f` to its caller.
-/

/-- An attribute value stored in a span attribute dictionary. -/
inductive Value : Type
  | str (s : String)
  | int (n : Int)
  | bool (b : Bool)
deriving DecidableEq

/-- A Python attribute dictionary: items in insertion order, keys unique. -/
abbrev AttrMap : Type := List (String × Value)

/-- A Python exception instance. `truthy` is the result of `bool(e)`. -/
structure Exc where
  ename : String
  msg : String
  truthy : Bool
deriving DecidableEq

/-- Dictionary lookup over an association list. -/
def lookupKey {α : Type} : List (String × α) → String → Option α
  | [], _ => none
  | p :: rest, key => if p.1 = key then some p.2 else lookupKey rest key

/-- Dictionary assignment: overwrite the entry for `key` in place if present,
otherwise append a new entry (the semantics of `d[key] = value` and of the
SDK's `span.set_attribute`). -/
def setKey {α : Type} : List (String × α) → String → α → List (String × α)
  | [], key, value => [(key, value)]
  | p :: rest, key, value =>
    if p.1 = key then (key, value) :: rest else p :: setKey rest key value

/-- The state of an SDK span as observed through the calls this module makes.
`endCount` counts calls to `span.end()`; `endSnapshot` is the list of recorded
exception events at the moment of the first `end()` call (so it witnesses what
was recorded before the span ended); `recordFault` models the behaviour of
this span's SDK `record_exception` primitive: `some f` means that SDK call
raises `f` instead of recording. -/
structure Span where
  sname : String
  attributes : AttrMap
  recordedExceptions : List (Exc × AttrMap)
  endCount : Nat
  endSnapshot : Option (List (Exc × AttrMap))
  recordFault : Option Exc
deriving DecidableEq

/-- The ambient SDK behaviour visible to the tracer obtained by
`trace.get_tracer(__name__)`: whether `record_exception` on spans it starts
will itself raise. -/
structure Sdk where
  recordExceptionFault : Option Exc
deriving DecidableEq

/-- `span.end()`: increments the end counter; the first call snapshots the
events recorded so far. -/
def spanEnd (s : Span) : Span :=
  { s with
    endCount := s.endCount + 1,
    endSnapshot :=
      match s.endSnapshot with
      | none => some s.recordedExceptions
      | some l => some l }

/-- `create_custom_span(name, attributes=None)`: obtains the process-wide
tracer and starts a fresh span with the given name and the supplied initial
attribute mapping, substituting `{}` when `attributes is None`. -/
def create_custom_span (sdk : Sdk) (name : String) (attributes : Option AttrMap) : Span :=
  let attributes : AttrMap :=
    match attributes with
    | none => []
    | some a => a
  { sname := name
    attributes := attributes
    recordedExceptions := []
    endCount := 0
    endSnapshot := none
    recordFault := sdk.recordExceptionFault }

/-- The loop body of `add_span_attributes`: `for key, value in
attributes.items(): span.set_attribute(key, value)`. -/
def add_span_attributes_run (span : Span) (attributes : AttrMap) : Span :=
  attributes.foldl (fun s p => { s with attributes := setKey s.attributes p.1 p.2 }) span

/-- The fault raised by `None.items()` (`add_span_attributes` has no
`is None` guard, unlike its two sibling helpers). -/
def attrNoneFault : Exc :=
  { ename := "AttributeError", msg := "NoneType object has no attribute items", truthy := true }

/-- `add_span_attributes(span, attributes)`: iterates `attributes.items()`
setting each pair on the span; passing `None` makes the `.items()` call
raise. -/
def add_span_attributes (span : Span) (attributes : Option AttrMap) : Except Exc Span :=
  match attributes with
  | none => .error attrNoneFault
  | some a => .ok (add_span_attributes_run span a)

/-- `record_exception(span, exception, attributes=None)`: substitutes `{}`
for `None`, then delegates to the SDK's `span.record_exception`, which
appends a fault event — or raises, when this span's record primitive is
modelled as faulting. -/
def record_exception (span : Span) (exception : Exc) (attributes : Option AttrMap) :
    Except Exc Span :=
  let attributes : AttrMap :=
    match attributes with
    | none => []
    | some a => a
  match span.recordFault with
  | some f => .error f
  | none =>
      .ok { span with
              recordedExceptions := span.recordedExceptions ++ [(exception, attributes)] }

/-- The `TracingSpan` context-manager object after `__init__`. -/
structure TracingSpan where
  tsname : String
  attributes : AttrMap
deriving DecidableEq

/-- `TracingSpan.__init__(name, attributes=None)`: stores the name and
`attributes or {}` (an empty or `None` mapping becomes `{}`). -/
def TracingSpan.init (name : String) (attributes : Option AttrMap) : TracingSpan :=
  { tsname := name
    attributes :=
      match attributes with
      | none => []
      | some a => if a.isEmpty then [] else a }

/-- `TracingSpan.__enter__`: starts the span via `create_custom_span`. -/
def TracingSpan.enter (sdk : Sdk) (ts : TracingSpan) : Span :=
  create_custom_span sdk ts.tsname (some ts.attributes)

/-- `TracingSpan.__exit__(exc_type, exc_val, exc_tb)`: `if exc_val:` records
the exception (truthiness test, not a `None` test), then `self.span.end()`;
returns `None`, so any body exception keeps propagating. A fault raised by
`record_exception` itself propagates before `end()` is reached. -/
def TracingSpan.exit (span : Span) (exc_val : Option Exc) : Except Exc Span :=
  match exc_val with
  | some e =>
    if e.truthy then
      match record_exception span e none with
      | .error f => .error f
      | .ok s => .ok (spanEnd s)
    else .ok (spanEnd span)
  | none => .ok (spanEnd span)

/-- Outcome of running a `with TracingSpan(...):` block: the final state of
the span object and the fault (if any) that propagates to the caller. -/
structure ScopeResult where
  span : Span
  fault : Option Exc
deriving DecidableEq

/-- Python `with` semantics for `TracingSpan`: enter, run a body that either
completes normally (`bodyFault = none`) or raises, then call `__exit__`.
Since `__exit__` returns `None`, a body fault keeps propagating after a
normal exit; a fault raised inside `__exit__` propagates instead (masking
the body fault) and leaves the span in its pre-exit state. -/
def withTracingSpan (sdk : Sdk) (name : String) (attributes : Option AttrMap)
    (bodyFault : Option Exc) : ScopeResult :=
  let ts := TracingSpan.init name attributes
  let span := TracingSpan.enter sdk ts
  match TracingSpan.exit span bodyFault with
  | .ok s => { span := s, fault := bodyFault }
  | .error f => { span := span, fault := some f }

/-- `os.getenv(name, default)`: the default is used only when the variable is
absent from the environment; a present-but-empty value is returned as is. -/
def osGetenv (env : Option String) (dflt : String) : String :=
  match env with
  | none => dflt
  | some v => v

/-- The dictionary passed to `Resource.create` in `setup_tracing`, given the
value of the `ENVIRONMENT` variable (`none` = unset). -/
def resourceAttributes (env : Option String) : List (String × String) :=
  [("service.name", "tiktok-toe-api"),
   ("service.version", "1.0.0"),
   ("deployment.environment", osGetenv env "development")]

/-- One observable SDK call made by `setup_tracing`, with its arguments. -/
inductive SetupEffect : Type
  | createResource (attrs : List (String × String))
  | installProvider (attrs : List (String × String))
  | createExporter (endpoint : String) (insecure : Bool)
  | createBatchProcessor (endpoint : String) (insecure : Bool)
  | attachProcessor (endpoint : String) (insecure : Bool)
  | instrument (lib : String)
deriving DecidableEq

/-- Environment for `setup_tracing`: the `ENVIRONMENT` variable and, for each
SDK call the function makes, whether that call raises (`some f`) or succeeds
(`none`). -/
structure SetupSdk where
  environment : Option String
  resourceFault : Option Exc
  providerFault : Option Exc
  exporterFault : Option Exc
  processorFault : Option Exc
  addProcessorFault : Option Exc
  fastapiFault : Option Exc
  redisFault : Option Exc
  sqlalchemyFault : Option Exc
  elasticsearchFault : Option Exc
  requestsFault : Option Exc
deriving DecidableEq

/-- Runs a straight-line sequence of SDK calls: each call either raises its
fault — which propagates uncaught, with the effects performed so far — or
performs its effect and control falls through to the next call. -/
def runSetup : List (Option Exc × SetupEffect) → List SetupEffect →
    Except (List SetupEffect × Exc) (List SetupEffect)
  | [], acc => .ok acc
  | (fault, eff) :: rest, acc =>
    match fault with
    | some f => .error (acc, f)
    | none => runSetup rest (acc ++ [eff])

/-- The straight-line body of `setup_tracing`, call by call and in source
order: build the resource, install a provider bound to it, construct the
OTLP exporter with the hard-coded endpoint and `insecure=True`, wrap it in a
`BatchSpanProcessor` attached to the provider, then instrument the five
libraries. -/
def setupSteps (sdk : SetupSdk) : List (Option Exc × SetupEffect) :=
  [(sdk.resourceFault, .createResource (resourceAttributes sdk.environment)),
   (sdk.providerFault, .installProvider (resourceAttributes sdk.environment)),
   (sdk.exporterFault, .createExporter "http://otel-collector:4317" true),
   (sdk.processorFault, .createBatchProcessor "http://otel-collector:4317" true),
   (sdk.addProcessorFault, .attachProcessor "http://otel-collector:4317" true),
   (sdk.fastapiFault, .instrument "fastapi"),
   (sdk.redisFault, .instrument "redis"),
   (sdk.sqlalchemyFault, .instrument "sqlalchemy"),
   (sdk.elasticsearchFault, .instrument "elasticsearch"),
   (sdk.requestsFault, .instrument "requests")]

/-- `setup_tracing()`: performs its SDK calls in order; any raised fault
propagates to the caller uncaught. -/
def setup_tracing (sdk : SetupSdk) : Except (List SetupEffect × Exc) (List SetupEffect) :=
  runSetup (setupSteps sdk) []

/-- The full effect trace of a successful `setup_tracing` run. -/
def expectedSetupEffects (env : Option String) : List SetupEffect :=
  [.createResource (resourceAttributes env),
   .installProvider (resourceAttributes env),
   .createExporter "http://otel-collector:4317" true,
   .createBatchProcessor "http://otel-collector:4317" true,
   .attachProcessor "http://otel-collector:4317" true,
   .instrument "fastapi",
   .instrument "redis",
   .instrument "sqlalchemy",
   .instrument "elasticsearch",
   .instrument "requests"]

/-- All SDK calls made by `setup_tracing` succeed. -/
def sdkNoFaults (sdk : SetupSdk) : Prop :=
  sdk.resourceFault = none ∧ sdk.providerFault = none ∧ sdk.exporterFault = none ∧
  sdk.processorFault = none ∧ sdk.addProcessorFault = none ∧ sdk.fastapiFault = none ∧
  sdk.redisFault = none ∧ sdk.sqlalchemyFault = none ∧ sdk.elasticsearchFault = none ∧
  sdk.requestsFault = none

instance (sdk : SetupSdk) : Decidable (sdkNoFaults sdk) := by
  unfold sdkNoFaults; infer_instance

/- ### Dictionary lemmas -/

theorem lookupKey_setKey_self {α : Type} (l : List (String × α)) (k : String) (v : α) :
    lookupKey (setKey l k v) k = some v := by
  induction l with
  | nil => simp [setKey, lookupKey]
  | cons p rest ih =>
    by_cases h : p.1 = k
    · simp [setKey, h, lookupKey]
    · simp [setKey, h, lookupKey, ih]

theorem lookupKey_setKey_ne {α : Type} (l : List (String × α)) (k k' : String) (v : α)
    (hne : k' ≠ k) : lookupKey (setKey l k v) k' = lookupKey l k' := by
  have hk : ¬ (k = k') := Ne.symm hne
  induction l with
  | nil => simp [setKey, lookupKey, hk]
  | cons p rest ih =>
    by_cases h : p.1 = k
    · have hp : ¬ (p.1 = k') := by rw [h]; exact hk
      simp [setKey, h, lookupKey, hk, hp]
    · simp [setKey, h, lookupKey, ih]

theorem lookupKey_fold_not_mem {α : Type} (A : List (String × α)) (acc : List (String × α))
    (k : String) (h : ∀ p ∈ A, p.1 ≠ k) :
    lookupKey (A.foldl (fun ac p => setKey ac p.1 p.2) acc) k = lookupKey acc k := by
  induction A generalizing acc with
  | nil => rfl
  | cons q rest ih =>
    have hq : q.1 ≠ k := h q (List.mem_cons_self q rest)
    have hrest : ∀ p ∈ rest, p.1 ≠ k := fun p hp => h p (List.mem_cons_of_mem q hp)
    simp only [List.foldl_cons]
    rw [ih (setKey acc q.1 q.2) hrest, lookupKey_setKey_ne acc q.1 k q.2 (fun hh => hq hh.symm)]

theorem lookupKey_fold_mem {α : Type} (A : List (String × α)) (acc : List (String × α))
    (k : String) (v : α) (hnd : (A.map Prod.fst).Nodup) (hmem : (k, v) ∈ A) :
    lookupKey (A.foldl (fun ac p => setKey ac p.1 p.2) acc) k = some v := by
  induction A generalizing acc with
  | nil => cases hmem
  | cons q rest ih =>
    rcases List.mem_cons.mp hmem with hq | hr
    · subst hq
      have hnotin : k ∉ rest.map Prod.fst := (List.nodup_cons.mp hnd).1
      have hrest : ∀ p ∈ rest, p.1 ≠ k := by
        intro p hp hc
        exact hnotin (hc ▸ List.mem_map_of_mem Prod.fst hp)
      simp only [List.foldl_cons]
      rw [lookupKey_fold_not_mem rest _ k hrest, lookupKey_setKey_self]
    · simp only [List.foldl_cons]
      exact ih (setKey acc q.1 q.2) (List.nodup_cons.mp hnd).2 hr

theorem add_span_attributes_run_eq (span : Span) (A : AttrMap) :
    add_span_attributes_run span A =
      { span with attributes := A.foldl (fun ac p => setKey ac p.1 p.2) span.attributes } := by
  induction A generalizing span with
  | nil => rfl
  | cons q rest ih =>
    show add_span_attributes_run { span with attributes := setKey span.attributes q.1 q.2 } rest = _
    rw [ih]
    exact rfl

theorem runSetup_ok_faults_none (steps : List (Option Exc × SetupEffect))
    (acc l : List SetupEffect) (h : runSetup steps acc = .ok l) :
    ∀ p ∈ steps, p.1 = none := by
  induction steps generalizing acc with
  | nil => intro p hp; cases hp
  | cons q rest ih =>
    obtain ⟨qf, qe⟩ := q
    intro p hp
    rcases List.mem_cons.mp hp with hq | hr
    · subst hq
      cases qf with
      | none => rfl
      | some f => simp [runSetup] at h
    · cases qf with
      | none => exact ih (acc ++ [qe]) h p hr
      | some f => simp [runSetup] at h

/- ### Claim theorems -/

/-- C2 counterexample: with `ENVIRONMENT` set to the empty string, the
resource maps `deployment.environment` to `""`, not to `"development"` as
the claim states for the empty case (`os.getenv` only falls back to the
default when the variable is unset). -/
theorem resource_env_empty_cex :
    lookupKey (resourceAttributes (some "")) "deployment.environment" = some "" ∧
    ("" : String) ≠ "development" := by
  constructor
  · rfl
  · decide

/-- C2 (amended): the resource dictionary maps `service.name` to
`"tiktok-toe-api"`, `service.version` to `"1.0.0"`, and
`deployment.environment` to the value of `ENVIRONMENT` whenever it is set
(even to the empty string), and to `"development"` only when it is unset. -/
theorem resource_attributes_spec (env : Option String) :
    lookupKey (resourceAttributes env) "service.name" = some "tiktok-toe-api" ∧
    lookupKey (resourceAttributes env) "service.version" = some "1.0.0" ∧
    lookupKey (resourceAttributes env) "deployment.environment" =
      some (match env with | none => "development" | some v => v) := by
  refine ⟨rfl, rfl, ?_⟩
  cases env <;> rfl

/-- C3: a `TracingSpan` scope whose body completes normally ends the span
exactly once, records no fault on it, and propagates no fault to the
caller. -/
theorem tracingSpan_normal_spec (sdk : Sdk) (name : String) (attributes : Option AttrMap) :
    (withTracingSpan sdk name attributes none).fault = none ∧
    (withTracingSpan sdk name attributes none).span.endCount = 1 ∧
    (withTracingSpan sdk name attributes none).span.recordedExceptions = [] ∧
    (withTracingSpan sdk name attributes none).span.endSnapshot = some [] := by
  refine ⟨rfl, rfl, rfl, rfl⟩

/-- C1 counterexample: the scope body raises the concrete exception
`{ ename := "SilentError", msg := "boom", truthy := false }`; the fault
propagates and the span is ended, but — contrary to the claim, which demands
that every raised fault be recorded — nothing is recorded on the span,
because `__exit__` tests the exception's truthiness rather than its
presence. -/
theorem tracingSpan_faulting_claim_cex :
    (withTracingSpan { recordExceptionFault := none } "checkout" none
        (some { ename := "SilentError", msg := "boom", truthy := false })).fault =
      some { ename := "SilentError", msg := "boom", truthy := false } ∧
    (withTracingSpan { recordExceptionFault := none } "checkout" none
        (some { ename := "SilentError", msg := "boom", truthy := false })).span.endCount = 1 ∧
    (withTracingSpan { recordExceptionFault := none } "checkout" none
        (some { ename := "SilentError", msg := "boom", truthy := false })).span.recordedExceptions
      = [] := by
  refine ⟨rfl, rfl, rfl⟩

/-- C1 (amended): for a scope body raising a fault `E` that converts to
`true` as a boolean, provided the SDK record primitive of the span does not
itself fault, the span is ended exactly once, `E` is recorded on it with no
extra attributes before the end (the end-time snapshot already contains the
event), and `E` propagates to the caller unchanged. -/
theorem tracingSpan_faulting_spec (sdk : Sdk) (name : String) (attributes : Option AttrMap)
    (e : Exc) (htr : e.truthy = true) (hsdk : sdk.recordExceptionFault = none) :
    (withTracingSpan sdk name attributes (some e)).fault = some e ∧
    (withTracingSpan sdk name attributes (some e)).span.endCount = 1 ∧
    (withTracingSpan sdk name attributes (some e)).span.recordedExceptions = [(e, [])] ∧
    (withTracingSpan sdk name attributes (some e)).span.endSnapshot = some [(e, [])] := by
  simp [withTracingSpan, TracingSpan.enter, TracingSpan.init, TracingSpan.exit,
    create_custom_span, record_exception, hsdk, htr, spanEnd]

/-- C1 witness. -/
theorem tracingSpan_faulting_spec_witness :
    (withTracingSpan { recordExceptionFault := none } "checkout"
        (some [("user_id", Value.str "42")])
        (some { ename := "ValueError", msg := "bad input", truthy := true })).fault =
      some { ename := "ValueError", msg := "bad input", truthy := true } ∧
    (withTracingSpan { recordExceptionFault := none } "checkout"
        (some [("user_id", Value.str "42")])
        (some { ename := "ValueError", msg := "bad input", truthy := true })).span.endCount = 1 ∧
    (withTracingSpan { recordExceptionFault := none } "checkout"
        (some [("user_id", Value.str "42")])
        (some { ename := "ValueError", msg := "bad input", truthy := true })).span.recordedExceptions
      = [({ ename := "ValueError", msg := "bad input", truthy := true }, [])] ∧
    (withTracingSpan { recordExceptionFault := none } "checkout"
        (some [("user_id", Value.str "42")])
        (some { ename := "ValueError", msg := "bad input", truthy := true })).span.endSnapshot
      = some [({ ename := "ValueError", msg := "bad input", truthy := true }, [])] :=
  tracingSpan_faulting_spec { recordExceptionFault := none } "checkout"
    (some [("user_id", Value.str "42")])
    { ename := "ValueError", msg := "bad input", truthy := true } rfl rfl

/-- C4: `add_span_attributes` applied to a mapping `A` (keys unique, as in a
Python dict) succeeds and leaves every key of `A` present on the span with
`A`'s value; applying an empty mapping returns the span unchanged; and a
later call with a mapping `B` overwrites overlapping keys with `B`'s values
(last write wins across calls). -/
theorem add_span_attributes_spec (span : Span) (A : AttrMap) (k : String) (v : Value)
    (hnd : (A.map Prod.fst).Nodup) (hmem : (k, v) ∈ A) :
    (∃ s, add_span_attributes span (some A) = .ok s ∧
      lookupKey s.attributes k = some v ∧ s.endCount = span.endCount ∧
      s.recordedExceptions = span.recordedExceptions) ∧
    add_span_attributes span (some []) = .ok span ∧
    (∀ B : AttrMap, ∀ w : Value, (B.map Prod.fst).Nodup → (k, w) ∈ B →
      ∃ s, add_span_attributes (add_span_attributes_run span A) (some B) = .ok s ∧
        lookupKey s.attributes k = some w) := by
  refine ⟨⟨add_span_attributes_run span A, rfl, ?_, ?_, ?_⟩, rfl, ?_⟩
  · rw [add_span_attributes_run_eq]
    exact lookupKey_fold_mem A span.attributes k v hnd hmem
  · rw [add_span_attributes_run_eq]
  · rw [add_span_attributes_run_eq]
  · intro B w hndB hmemB
    refine ⟨add_span_attributes_run (add_span_attributes_run span A) B, rfl, ?_⟩
    rw [add_span_attributes_run_eq]
    exact lookupKey_fold_mem B _ k w hndB hmemB

/-- C4 witness. -/
theorem add_span_attributes_spec_witness :
    ((List.map Prod.fst
        ([("a", Value.int 1), ("b", Value.int 2)] : AttrMap)).Nodup ∧
      (("a", Value.int 1) ∈ ([("a", Value.int 1), ("b", Value.int 2)] : AttrMap))) ∧
    (∃ s, add_span_attributes
        { sname := "s", attributes := [], recordedExceptions := [], endCount := 0,
          endSnapshot := none, recordFault := none }
        (some [("a", Value.int 1), ("b", Value.int 2)]) = .ok s ∧
      lookupKey s.attributes "a" = some (Value.int 1) ∧ s.endCount = 0 ∧
      s.recordedExceptions = []) :=
  ⟨⟨by decide, by decide⟩, by
    have h := add_span_attributes_spec
      { sname := "s", attributes := [], recordedExceptions := [], endCount := 0,
        endSnapshot := none, recordFault := none }
      [("a", Value.int 1), ("b", Value.int 2)] "a" (Value.int 1) (by decide) (by decide)
    exact h.1⟩

/-- C5: `record_exception` on a span whose SDK record primitive succeeds
appends exactly one fault event carrying the supplied attribute mapping
(empty when `None` is supplied), changes nothing else on the span — in
particular it does not end it — and returns normally instead of raising. -/
theorem record_exception_spec (span : Span) (e : Exc) (attributes : Option AttrMap)
    (h : span.recordFault = none) :
    record_exception span e attributes =
      .ok { span with
              recordedExceptions :=
                span.recordedExceptions ++ [(e, attributes.getD [])] } := by
  cases attributes <;> simp [record_exception, h, Option.getD]

/-- C5 witness. -/
theorem record_exception_spec_witness :
    record_exception
        { sname := "s", attributes := [], recordedExceptions := [], endCount := 0,
          endSnapshot := none, recordFault := none }
        { ename := "ValueError", msg := "bad", truthy := true } none =
      .ok { sname := "s", attributes := [],
            recordedExceptions :=
              [] ++ [({ ename := "ValueError", msg := "bad", truthy := true },
                       (none : Option AttrMap).getD [])],
            endCount := 0, endSnapshot := none, recordFault := none } :=
  record_exception_spec
    { sname := "s", attributes := [], recordedExceptions := [], endCount := 0,
      endSnapshot := none, recordFault := none }
    { ename := "ValueError", msg := "bad", truthy := true } none rfl

/-- C6: when every SDK call succeeds, `setup_tracing` performs exactly, and
in order: resource creation, provider installation bound to that resource,
exporter construction with endpoint `http://otel-collector:4317` and
`insecure = true`, batch-processor wrapping and attachment, then the five
instrumentation activations; and whenever any of its SDK calls raises, the
run does not complete — the fault propagates uncaught. -/
theorem setup_tracing_spec (sdk : SetupSdk) :
    (sdkNoFaults sdk → setup_tracing sdk = .ok (expectedSetupEffects sdk.environment)) ∧
    (¬ sdkNoFaults sdk → ∀ l, setup_tracing sdk ≠ .ok l) := by
  constructor
  · rintro ⟨h1, h2, h3, h4, h5, h6, h7, h8, h9, h10⟩
    simp [setup_tracing, setupSteps, runSetup, expectedSetupEffects,
      h1, h2, h3, h4, h5, h6, h7, h8, h9, h10]
  · intro hno l hok
    have hall := runSetup_ok_faults_none (setupSteps sdk) [] l hok
    exact hno
      ⟨hall (sdk.resourceFault, .createResource (resourceAttributes sdk.environment))
          (by simp [setupSteps]),
        hall (sdk.providerFault, .installProvider (resourceAttributes sdk.environment))
          (by simp [setupSteps]),
        hall (sdk.exporterFault, .createExporter "http://otel-collector:4317" true)
          (by simp [setupSteps]),
        hall (sdk.processorFault, .createBatchProcessor "http://otel-collector:4317" true)
          (by simp [setupSteps]),
        hall (sdk.addProcessorFault, .attachProcessor "http://otel-collector:4317" true)
          (by simp [setupSteps]),
        hall (sdk.fastapiFault, .instrument "fastapi") (by simp [setupSteps]),
        hall (sdk.redisFault, .instrument "redis") (by simp [setupSteps]),
        hall (sdk.sqlalchemyFault, .instrument "sqlalchemy") (by simp [setupSteps]),
        hall (sdk.elasticsearchFault, .instrument "elasticsearch") (by simp [setupSteps]),
        hall (sdk.requestsFault, .instrument "requests") (by simp [setupSteps])⟩

/-- C6 witness. -/
theorem setup_tracing_spec_witness :
    setup_tracing
        { environment := some "production", resourceFault := none, providerFault := none,
          exporterFault := none, processorFault := none, addProcessorFault := none,
          fastapiFault := none, redisFault := none, sqlalchemyFault := none,
          elasticsearchFault := none, requestsFault := none } =
      .ok (expectedSetupEffects (some "production")) ∧
    (∀ l, setup_tracing
        { environment := some "production",
          resourceFault := some { ename := "RuntimeError", msg := "down", truthy := true },
          providerFault := none, exporterFault := none, processorFault := none,
          addProcessorFault := none, fastapiFault := none, redisFault := none,
          sqlalchemyFault := none, elasticsearchFault := none, requestsFault := none }
        ≠ .ok l) :=
  ⟨(setup_tracing_spec _).1 (by exact ⟨rfl, rfl, rfl, rfl, rfl, rfl, rfl, rfl, rfl, rfl⟩),
   (setup_tracing_spec _).2 (by simp [sdkNoFaults])⟩

/-- C7: `create_custom_span` returns a fresh span carrying the requested
name and the supplied initial attribute mapping — the empty mapping when
`None` is supplied — with nothing recorded and the span not ended. -/
theorem create_custom_span_spec (sdk : Sdk) (name : String) (attributes : Option AttrMap) :
    (create_custom_span sdk name attributes).sname = name ∧
    (create_custom_span sdk name attributes).attributes =
      (match attributes with | none => ([] : AttrMap) | some a => a) ∧
    (create_custom_span sdk name attributes).endCount = 0 ∧
    (create_custom_span sdk name attributes).recordedExceptions = [] := by
  cases attributes <;> exact ⟨rfl, rfl, rfl, rfl⟩

/-- C8: `create_custom_span` and `record_exception` treat a `None` attribute
mapping exactly like an empty one, but `add_span_attributes` called with
`None` raises (iterating `None.items()`) instead of acting as a no-op. -/
theorem add_span_attributes_none_fault (span : Span) (sdk : Sdk) (name : String) (e : Exc) :
    add_span_attributes span none = .error attrNoneFault ∧
    create_custom_span sdk name none = create_custom_span sdk name (some []) ∧
    record_exception span e none = record_exception span e (some []) := by
  exact ⟨rfl, rfl, rfl⟩

/-- C9: when the body raises a (truthy) fault and the span's SDK record
primitive itself raises, `TracingSpan.__exit__` propagates the secondary
fault, `self.span.end()` is never reached, and the span is never ended — the
end-exactly-once invariant fails on this path. -/
theorem tracingSpan_record_raises_spec (sdk : Sdk) (name : String)
    (attributes : Option AttrMap) (e f : Exc) (htr : e.truthy = true)
    (hsdk : sdk.recordExceptionFault = some f) :
    (withTracingSpan sdk name attributes (some e)).fault = some f ∧
    (withTracingSpan sdk name attributes (some e)).span.endCount = 0 ∧
    (withTracingSpan sdk name attributes (some e)).span.endSnapshot = none := by
  simp [withTracingSpan, TracingSpan.enter, TracingSpan.init, TracingSpan.exit,
    create_custom_span, record_exception, hsdk, htr]

/-- C9 witness. -/
theorem tracingSpan_record_raises_spec_witness :
    (withTracingSpan
        { recordExceptionFault := some { ename := "SdkError", msg := "rec", truthy := true } }
        "checkout" none
        (some { ename := "ValueError", msg := "bad", truthy := true })).fault =
      some { ename := "SdkError", msg := "rec", truthy := true } ∧
    (withTracingSpan
        { recordExceptionFault := some { ename := "SdkError", msg := "rec", truthy := true } }
        "checkout" none
        (some { ename := "ValueError", msg := "bad", truthy := true })).span.endCount = 0 ∧
    (withTracingSpan
        { recordExceptionFault := some { ename := "SdkError", msg := "rec", truthy := true } }
        "checkout" none
        (some { ename := "ValueError", msg := "bad", truthy := true })).span.endSnapshot =
      none :=
  tracingSpan_record_raises_spec
    { recordExceptionFault := some { ename := "SdkError", msg := "rec", truthy := true } }
    "checkout" none { ename := "ValueError", msg := "bad", truthy := true }
    { ename := "SdkError", msg := "rec", truthy := true } rfl rfl

/-- C10: `__exit__` tests `if exc_val:` — the boolean conversion of the
exception, not its presence — so a raised exception whose boolean conversion
is false leaves the scope with the span ended once, nothing recorded on it,
and the exception still propagating. -/
theorem tracingSpan_falsy_exc_spec (sdk : Sdk) (name : String) (attributes : Option AttrMap)
    (e : Exc) (hf : e.truthy = false) :
    (withTracingSpan sdk name attributes (some e)).fault = some e ∧
    (withTracingSpan sdk name attributes (some e)).span.endCount = 1 ∧
    (withTracingSpan sdk name attributes (some e)).span.recordedExceptions = [] := by
  simp [withTracingSpan, TracingSpan.enter, TracingSpan.init, TracingSpan.exit,
    create_custom_span, hf, spanEnd]

/-- C10 witness. -/
theorem tracingSpan_falsy_exc_spec_witness :
    (withTracingSpan { recordExceptionFault := none } "job" none
        (some { ename := "Quiet", msg := "x", truthy := false })).fault =
      some { ename := "Quiet", msg := "x", truthy := false } ∧
    (withTracingSpan { recordExceptionFault := none } "job" none
        (some { ename := "Quiet", msg := "x", truthy := false })).span.endCount = 1 ∧
    (withTracingSpan { recordExceptionFault := none } "job" none
        (some { ename := "Quiet", msg := "x", truthy := false })).span.recordedExceptions
      = [] :=
  tracingSpan_falsy_exc_spec { recordExceptionFault := none } "job" none
    { ename := "Quiet", msg := "x", truthy := false } rfl
